import Mathlib

/-!
Shallow embedding of the page-navigation and live-reload core of the
`ptf` PDF test application (`src/ptf/__init__.py`).

The application class `PDFTestApp` wires keys and buttons to a `PDFViewer`
widget. The state the claims talk about is the viewer state: the open
document (replaced wholesale by `self.pdf_viewer.doc = fitz.open(...)`),
the 0-based `current_page`, the page count `total_pages`, and the render
cache `self.pdf_viewer._cache`. A background worker
(`start_watching_please`) polls the file modification time once per second
and reloads the document when it changes.

The navigation methods `next_page`, `previous_page`, `go_to_start`,
`go_to_end` and the `current_page` assignment semantics live in the
external `textual_pdf` package, which is not part of this repository;
those definitions are modelled from the spec and are marked as such.
Everything else is translated line by line from `src/ptf/__init__.py`.
-/

namespace Ptf

/-- A document as returned by `fitz.open`: only its page count is relevant
to the navigation core. -/
structure Document where
  page_count : Int
deriving DecidableEq

/-- State of the `PDFViewer` widget as manipulated by `PDFTestApp`:
`doc_gen` is a ghost counter standing for the identity of the `doc`
object, bumped every time `self.pdf_viewer.doc` is reassigned (the
DocumentGeneration of the spec); `total_pages` is the page count of the
current document; `current_page` is the 0-based page index; `cache`
models `self.pdf_viewer._cache`, each entry recording the page index it
is keyed by and the generation of the document it was rendered against. -/
structure Viewer where
  doc_gen : Nat
  total_pages : Int
  current_page : Int
  cache : List (Int × Nat)
deriving DecidableEq

/-- Modelled from the spec: `PDFViewer.next_page` lives in the external
`textual_pdf` package, not under src. Spec section 4.3:
current = min(current + 1, total - 1). -/
def next_page (v : Viewer) : Viewer :=
  { v with current_page := min (v.current_page + 1) (v.total_pages - 1) }

/-- Modelled from the spec: `PDFViewer.previous_page` lives in the external
`textual_pdf` package, not under src. Spec section 4.3:
current = max(current - 1, 0). -/
def previous_page (v : Viewer) : Viewer :=
  { v with current_page := max (v.current_page - 1) 0 }

/-- Modelled from the spec: `PDFViewer.go_to_start` lives in the external
`textual_pdf` package, not under src. Spec section 4.3: current = 0. -/
def go_to_start (v : Viewer) : Viewer :=
  { v with current_page := 0 }

/-- Modelled from the spec: `PDFViewer.go_to_end` lives in the external
`textual_pdf` package, not under src. Spec section 4.3:
current = total - 1, a no-op when total = 0. -/
def go_to_end (v : Viewer) : Viewer :=
  if v.total_pages = 0 then v else { v with current_page := v.total_pages - 1 }

/-- Modelled from the spec: the cache-filling read of the facade
(spec section 4.5). On a cache miss for the current page, the page is
rendered against the current document and stored; the stored entry is
tagged with the generation of the document it was rendered from. -/
def cache_current (v : Viewer) : Viewer :=
  if (v.cache.map Prod.fst).contains v.current_page then v
  else { v with cache := (v.current_page, v.doc_gen) :: v.cache }

/-- Python `str.isnumeric` restricted to ASCII digit strings: true iff the
string is nonempty and all characters are digits. (Python also accepts
other Unicode numeric characters; the typed page numbers the claims are
about are digit strings.) -/
def py_isnumeric (s : String) : Bool :=
  !s.data.isEmpty && s.data.all Char.isDigit

/-- Python `int(...)` on a digit string: the denoted base-10 number. -/
def py_int (s : String) : Int :=
  Int.ofNat (s.data.foldl (fun a c => a * 10 + (c.toNat - 48)) 0)

/-- Embedding of `PDFTestApp.on_input_changed` (src lines 94..102,
state-relevant part): if the typed value is numeric, differs from the
0-based `current_page`, and is below `total_pages`, then
`current_page = int(value) - 1`; otherwise nothing happens. -/
def on_input_changed (v : Viewer) (value : String) : Viewer :=
  if py_isnumeric value = true ∧ v.current_page ≠ py_int value ∧
      py_int value < v.total_pages then
    { v with current_page := py_int value - 1 }
  else v

/-- Embedding of the `#current` input value written by
`PDFTestApp.fix_buttons` (src line 90): the displayed page number is
`str(current_page + 1)`. -/
def fix_buttons_current_value (v : Viewer) : String :=
  toString (v.current_page + 1)

/-- Embedding of the `#prev` button disabling in `fix_buttons`
(src line 86): disabled iff `current_page == 0`. -/
def fix_buttons_prev_disabled (v : Viewer) : Bool :=
  v.current_page = 0

/-- Embedding of the `#next` button disabling in `fix_buttons`
(src lines 87..89): disabled iff `total_pages - 1 == current_page`. -/
def fix_buttons_next_disabled (v : Viewer) : Bool :=
  v.total_pages - 1 = v.current_page

/-- Embedding of the successful-reload branch of
`PDFTestApp.start_watching_please` (src lines 61..69): read
`current_page`, replace `doc` (new generation, new page count), reset
`_cache` to an empty dict, then either clamp `current_page` to
`total_pages - 1` when `total_pages <= current_page`, or decrement and
re-increment `current_page` (two plain reactive reassignments; spec
section 9 records this as a net no-op used to force a refresh). -/
def reload_success (v : Viewer) (newDoc : Document) : Viewer :=
  let current_page := v.current_page
  let v := { v with doc_gen := v.doc_gen + 1, total_pages := newDoc.page_count }
  let v := { v with cache := ([] : List (Int × Nat)) }
  if v.total_pages ≤ current_page then
    { v with current_page := v.total_pages - 1 }
  else
    let v := { v with current_page := v.current_page - 1 }
    { v with current_page := v.current_page + 1 }

/-- Outcome of the `fitz.open` call (plus the `doc` reassignment) during a
reload attempt. The source wraps the reload body only in
`contextlib.suppress(NotAPDFError)`, so the embedding distinguishes a
failure raising `NotAPDFError` from a failure raising any other exception
class (for example the fitz file-open errors raised for a missing or
unreadable path, which are not `NotAPDFError`). -/
inductive ReopenOutcome where
  | success (d : Document)
  | failNotAPDF
  | failOther
deriving DecidableEq

/-- State of the watch worker: the saved modification marker
`prev_stmtime` and the viewer state it guards. Markers are compared only
for equality, so they are modelled as integers. -/
structure WatchState where
  prev_stmtime : Int
  viewer : Viewer
deriving DecidableEq

/-- Result of one loop iteration of the watch worker: the new worker
state, and whether this iteration attempted to reopen the document
(that is, whether the marker comparison detected a change). -/
structure TickResult where
  state : WatchState
  attempted : Bool
deriving DecidableEq

/-- Embedding of one iteration of the `while True` loop of
`PDFTestApp.start_watching_please` (src lines 58..71): observe the fresh
modification marker; if it differs from `prev_stmtime`, attempt the
reload under `contextlib.suppress(NotAPDFError)` — on success run the
reload body, on `NotAPDFError` do nothing to the viewer, and on any other
exception the exception escapes the worker (`none`, a crash). In every
non-crashing case the final `prev_stmtime = new_stmtime` assignment runs. -/
def watch_tick (s : WatchState) (new_stmtime : Int) (outcome : ReopenOutcome) :
    Option TickResult :=
  if new_stmtime ≠ s.prev_stmtime then
    match outcome with
    | .success d => some ⟨⟨new_stmtime, reload_success s.viewer d⟩, true⟩
    | .failNotAPDF => some ⟨⟨new_stmtime, s.viewer⟩, true⟩
    | .failOther => none
  else
    some ⟨⟨new_stmtime, s.viewer⟩, false⟩

/-- The four phases of the successful-reload body, in the order they
appear in the source: `doc` replacement (line 62), cache reset (line 63),
cursor adjustment (lines 64..69), and the `fix_buttons` UI refresh
(line 70). -/
inductive ReloadEvent where
  | reopen
  | clearCache
  | resizeCursor
  | notifyUI
deriving DecidableEq

/-- The line order of the successful-reload body of
`start_watching_please`. -/
def reload_events : List ReloadEvent :=
  [.reopen, .clearCache, .resizeCursor, .notifyUI]

/-- Navigation operations reachable from `on_key` and `on_button_pressed`
(src lines 73..77 and 105..131). -/
inductive NavOp where
  | next
  | prev
deriving DecidableEq

/-- Dispatch of a single navigation key or button press. -/
def apply_nav (v : Viewer) : NavOp → Viewer
  | .next => next_page v
  | .prev => previous_page v

/-- A finite sequence of next and previous presses. -/
def apply_navs (v : Viewer) (l : List NavOp) : Viewer :=
  l.foldl apply_nav v

/-- Every operation of the application that touches the viewer state:
the four navigation actions, a change of the page-number input, a
cache-filling render of the current page, and a successful reload. -/
inductive Op where
  | next
  | prev
  | start
  | toEnd
  | input (s : String)
  | render
  | reload (d : Document)

/-- Dispatch of a single operation. -/
def apply_op (v : Viewer) : Op → Viewer
  | .next => next_page v
  | .prev => previous_page v
  | .start => go_to_start v
  | .toEnd => go_to_end v
  | .input s => on_input_changed v s
  | .render => cache_current v
  | .reload d => reload_success v d

/-- A finite sequence of operations. -/
def apply_ops (v : Viewer) (l : List Op) : Viewer :=
  l.foldl apply_op v

/-- Cache coherence: every cache entry was rendered against the current
document generation. -/
def cache_inv (v : Viewer) : Bool :=
  v.cache.all (fun e => e.2 = v.doc_gen)

/-- A concrete viewer state used by counterexamples and witnesses:
a freshly opened 5-page document with the cursor on page index 2. -/
def v5 : Viewer :=
  { doc_gen := 0, total_pages := 5, current_page := 2, cache := [] }

/-- A concrete viewer state on the last page of a 5-page document. -/
def v5last : Viewer :=
  { doc_gen := 0, total_pages := 5, current_page := 4, cache := [] }

/-- A concrete viewer state for a 1-page document. -/
def vone : Viewer :=
  { doc_gen := 0, total_pages := 1, current_page := 0, cache := [] }

/-! Helper lemmas shared by the claim theorems. -/

theorem apply_navs_nil (v : Viewer) : apply_navs v [] = v := rfl

theorem apply_navs_cons (v : Viewer) (o : NavOp) (l : List NavOp) :
    apply_navs v (o :: l) = apply_navs (apply_nav v o) l := rfl

theorem apply_nav_total_pages (v : Viewer) (o : NavOp) :
    (apply_nav v o).total_pages = v.total_pages := by
  cases o <;> rfl

theorem apply_navs_total_pages (v : Viewer) (l : List NavOp) :
    (apply_navs v l).total_pages = v.total_pages := by
  induction l generalizing v with
  | nil => rfl
  | cons o l ih => rw [apply_navs_cons, ih, apply_nav_total_pages]

theorem apply_nav_range (v : Viewer) (o : NavOp) (hT : 1 ≤ v.total_pages)
    (h0 : 0 ≤ v.current_page) (h1 : v.current_page < v.total_pages) :
    0 ≤ (apply_nav v o).current_page ∧ (apply_nav v o).current_page < v.total_pages := by
  cases o <;> simp [apply_nav, next_page, previous_page] <;> omega

theorem apply_navs_range (v : Viewer) (l : List NavOp) (hT : 1 ≤ v.total_pages)
    (h0 : 0 ≤ v.current_page) (h1 : v.current_page < v.total_pages) :
    0 ≤ (apply_navs v l).current_page ∧ (apply_navs v l).current_page < v.total_pages := by
  induction l generalizing v with
  | nil => exact ⟨h0, h1⟩
  | cons o l ih =>
      rw [apply_navs_cons]
      have ht := apply_nav_total_pages v o
      have hr := apply_nav_range v o hT h0 h1
      have := ih (apply_nav v o) (by omega) hr.1 (by omega)
      omega

theorem replicate_next_fixed (k : Nat) (v : Viewer)
    (h : v.current_page = v.total_pages - 1) :
    (apply_navs v (List.replicate k NavOp.next)).current_page = v.total_pages - 1 := by
  induction k generalizing v with
  | zero => simpa [apply_navs] using h
  | succ k ih =>
      rw [List.replicate_succ, apply_navs_cons]
      have hc : (apply_nav v NavOp.next).current_page = v.total_pages - 1 := by
        simp [apply_nav, next_page, h]
      have ht := apply_nav_total_pages v NavOp.next
      rw [ih (apply_nav v NavOp.next) (by omega), ht]

theorem replicate_prev_fixed (k : Nat) (v : Viewer) (h : v.current_page = 0) :
    (apply_navs v (List.replicate k NavOp.prev)).current_page = 0 := by
  induction k generalizing v with
  | zero => simpa [apply_navs] using h
  | succ k ih =>
      rw [List.replicate_succ, apply_navs_cons]
      have hc : (apply_nav v NavOp.prev).current_page = 0 := by
        simp [apply_nav, previous_page, h]
      exact ih (apply_nav v NavOp.prev) hc

theorem reload_success_eq (v : Viewer) (d : Document) :
    reload_success v d =
      if d.page_count ≤ v.current_page then
        { doc_gen := v.doc_gen + 1, total_pages := d.page_count,
          current_page := d.page_count - 1, cache := [] }
      else
        { doc_gen := v.doc_gen + 1, total_pages := d.page_count,
          current_page := v.current_page - 1 + 1, cache := [] } := by
  simp [reload_success]

theorem cache_inv_iff (v : Viewer) :
    cache_inv v = true ↔ ∀ e ∈ v.cache, e.2 = v.doc_gen := by
  simp [cache_inv]

theorem cache_inv_step (v : Viewer) (o : Op) (h : cache_inv v = true) :
    cache_inv (apply_op v o) = true := by
  rw [cache_inv_iff] at h ⊢
  cases o with
  | next => exact h
  | prev => exact h
  | start => exact h
  | toEnd =>
      show ∀ e ∈ (go_to_end v).cache, e.2 = (go_to_end v).doc_gen
      rw [go_to_end]; split <;> exact h
  | input s =>
      show ∀ e ∈ (on_input_changed v s).cache, e.2 = (on_input_changed v s).doc_gen
      rw [on_input_changed]; split <;> exact h
  | render =>
      show ∀ e ∈ (cache_current v).cache, e.2 = (cache_current v).doc_gen
      rw [cache_current]; split
      · exact h
      · intro e he
        rcases List.mem_cons.mp he with he | he
        · rw [he]
        · exact h e he
  | reload d =>
      show ∀ e ∈ (reload_success v d).cache, e.2 = (reload_success v d).doc_gen
      rw [reload_success_eq]; split <;> simp

theorem cache_inv_ops (v : Viewer) (l : List Op) (h : cache_inv v = true) :
    cache_inv (apply_ops v l) = true := by
  induction l generalizing v with
  | nil => exact h
  | cons o l ih => exact ih (apply_op v o) (cache_inv_step v o h)

theorem watch_tick_same (p : Int) (v : Viewer) (o : ReopenOutcome) :
    watch_tick ⟨p, v⟩ p o = some ⟨⟨p, v⟩, false⟩ := by
  cases o <;> rw [watch_tick, if_neg (by simp)]

theorem watch_tick_success (p : Int) (v : Viewer) (m : Int) (d : Document)
    (h : m ≠ p) : watch_tick ⟨p, v⟩ m (ReopenOutcome.success d) =
      some ⟨⟨m, reload_success v d⟩, true⟩ := by
  rw [watch_tick, if_pos (by simpa using h)]

theorem watch_tick_notapdf (p : Int) (v : Viewer) (m : Int) (h : m ≠ p) :
    watch_tick ⟨p, v⟩ m ReopenOutcome.failNotAPDF = some ⟨⟨m, v⟩, true⟩ := by
  rw [watch_tick, if_pos (by simpa using h)]

theorem watch_tick_other (p : Int) (v : Viewer) (m : Int) (h : m ≠ p) :
    watch_tick ⟨p, v⟩ m ReopenOutcome.failOther = none := by
  rw [watch_tick, if_pos (by simpa using h)]

/-! Claim theorems. -/

/-- Claim C1: for every starting state with at least one page and the
cursor in range, every finite sequence of next and previous presses keeps
the current page index within bounds; repeated next presses at the last
page leave the index at the last page, and repeated previous presses at
the first page leave it at 0. Both operations are total Lean functions,
so neither can raise. -/
theorem C1_nav_clamped (v : Viewer) (l : List NavOp) (k : Nat)
    (hT : 1 ≤ v.total_pages) (h0 : 0 ≤ v.current_page)
    (h1 : v.current_page < v.total_pages) :
    (0 ≤ (apply_navs v l).current_page ∧
      (apply_navs v l).current_page < v.total_pages)
    ∧ (v.current_page = v.total_pages - 1 →
        (apply_navs v (List.replicate k NavOp.next)).current_page =
          v.total_pages - 1)
    ∧ (v.current_page = 0 →
        (apply_navs v (List.replicate k NavOp.prev)).current_page = 0) :=
  ⟨apply_navs_range v l hT h0 h1,
    fun h => replicate_next_fixed k v h,
    fun h => replicate_prev_fixed k v h⟩

/-- Witness for C1 at a concrete 1-page document: three next presses from
the last (and only) page leave the cursor at the last page. -/
theorem C1_nav_clamped_witness :
    (apply_navs vone (List.replicate 3 NavOp.next)).current_page =
      vone.total_pages - 1 :=
  (C1_nav_clamped vone [] 3 (by decide) (by decide) (by decide)).2.1 (by decide)

/-- Claim C2: a successful reload that shrinks the page count from T to
a smaller positive page count, with the cursor previously on the last
page T - 1, leaves the cursor on the new last page and the cache empty
(hence with zero entries from the prior generation). -/
theorem C2_shrink_reload (v : Viewer) (t2 : Int)
    (hc : v.current_page = v.total_pages - 1) (h0 : 0 < t2)
    (hs : t2 < v.total_pages) :
    (reload_success v ⟨t2⟩).current_page = t2 - 1 ∧
      (reload_success v ⟨t2⟩).cache = [] := by
  rw [reload_success_eq, if_pos (by simp; omega)]
  exact ⟨rfl, rfl⟩

/-- Witness for C2: the spec scenario, a 5-page document on page index 4
rewritten to 3 pages, ends on page index 2 with an empty cache. -/
theorem C2_shrink_reload_witness :
    (reload_success v5last ⟨3⟩).current_page = 3 - 1 ∧
      (reload_success v5last ⟨3⟩).cache = [] :=
  C2_shrink_reload v5last 3 (by decide) (by decide) (by decide)

/-- Claim C7: a successful reload whose new page count is at least the
old one leaves the cursor exactly where it was, for every in-range prior
position including page index 0. -/
theorem C7_reload_preserves_position (v : Viewer) (t2 : Int)
    (h0 : 0 ≤ v.current_page) (h1 : v.current_page < v.total_pages)
    (hg : v.total_pages ≤ t2) :
    (reload_success v ⟨t2⟩).current_page = v.current_page := by
  rw [reload_success_eq, if_neg (by simp; omega)]
  simp

/-- Witness for C7: reloading a 5-page document on page index 2 into a
7-page document keeps the cursor on page index 2. -/
theorem C7_reload_preserves_position_witness :
    (reload_success v5 ⟨7⟩).current_page = v5.current_page :=
  C7_reload_preserves_position v5 7 (by decide) (by decide) (by decide)

/-- Claim C8, counterexample: reloading into a 0-page document from a
nonnegative cursor position sets the current page index to -1, not to 0
as the claim states. -/
theorem C8_counterexample :
    (reload_success v5 ⟨0⟩).current_page = -1 ∧
      ¬ (reload_success v5 ⟨0⟩).current_page = 0 := by decide

/-- Claim C8 as amended: when a successful reload replaces the document
with a 0-page one, the code sets the current page index to
total_pages - 1 = -1, a negative value, for every nonnegative prior
position. -/
theorem C8_resize_to_zero_is_negative (v : Viewer) (h : 0 ≤ v.current_page) :
    (reload_success v ⟨0⟩).current_page = -1 := by
  rw [reload_success_eq, if_pos (by simpa using h)]
  rfl

/-- Witness for the amended C8 at a concrete state. -/
theorem C8_resize_to_zero_is_negative_witness :
    (reload_success v5 ⟨0⟩).current_page = -1 :=
  C8_resize_to_zero_is_negative v5 (by decide)

/-- Claim C3, counterexample: a reload attempt whose reopen fails with an
exception other than NotAPDFError (for example the fitz file-open errors
raised for a missing or unreadable path) is not suppressed: the exception
escapes the watch worker, so the viewer is not left running unchanged.
This refutes the claim for arbitrary failure causes at a concrete state. -/
theorem C3_counterexample :
    watch_tick ⟨0, v5⟩ 1 ReopenOutcome.failOther = none := by decide

/-- Claim C3 as amended: a reload attempt whose reopen fails with
NotAPDFError — the only exception class named in the
contextlib.suppress of the source — leaves the viewer state (document,
render cache and page cursor) value-for-value unchanged and does not
crash; only the saved modification marker advances. -/
theorem C3_failed_reload_suppressed_noop (s : WatchState) (m : Int)
    (h : m ≠ s.prev_stmtime) :
    watch_tick s m ReopenOutcome.failNotAPDF = some ⟨⟨m, s.viewer⟩, true⟩ := by
  rw [watch_tick, if_pos h]

/-- Witness for the amended C3 at a concrete state. -/
theorem C3_failed_reload_suppressed_noop_witness :
    watch_tick ⟨0, v5⟩ 1 ReopenOutcome.failNotAPDF = some ⟨⟨1, v5⟩, true⟩ :=
  C3_failed_reload_suppressed_noop ⟨0, v5⟩ 1 (by decide)

/-- Claim C4, counterexample: after a reload attempt fails (marker moved
from 0 to 1, reopen raised NotAPDFError and was suppressed), the next
tick observing the same marker 1 does not attempt a reopen at all — the
document stays stale — because the failed iteration already stored the
new marker. This refutes the claimed retry on the next signal with an
unchanged marker. -/
theorem C4_counterexample :
    watch_tick ⟨0, v5⟩ 1 ReopenOutcome.failNotAPDF = some ⟨⟨1, v5⟩, true⟩
    ∧ watch_tick ⟨1, v5⟩ 1 (ReopenOutcome.success ⟨7⟩) =
        some ⟨⟨1, v5⟩, false⟩ := by decide

/-- Claim C4 as amended: a failed (suppressed) reload attempt stores the
observed marker, so a later tick attempts a reopen precisely when its
observed marker differs from the one stored at the failed attempt. -/
theorem C4_retry_needs_marker_change (s : WatchState) (m m2 : Int)
    (o : ReopenOutcome) (r : TickResult) (h : m ≠ s.prev_stmtime)
    (h2 : watch_tick ⟨m, s.viewer⟩ m2 o = some r) :
    watch_tick s m ReopenOutcome.failNotAPDF = some ⟨⟨m, s.viewer⟩, true⟩
    ∧ (r.attempted = true ↔ m2 ≠ m) := by
  refine ⟨by rw [watch_tick, if_pos h], ?_⟩
  by_cases hm : m2 = m
  · subst hm
    rw [watch_tick_same] at h2
    cases Option.some.inj h2
    simp
  · cases o with
    | success d =>
        rw [watch_tick_success m s.viewer m2 d hm] at h2
        cases Option.some.inj h2
        simpa using hm
    | failNotAPDF =>
        rw [watch_tick_notapdf m s.viewer m2 hm] at h2
        cases Option.some.inj h2
        simpa using hm
    | failOther =>
        rw [watch_tick_other m s.viewer m2 hm] at h2
        exact absurd h2 (by simp)

/-- Witness for the amended C4 at concrete inputs: the failed attempt at
marker 1, followed by a tick observing the unchanged marker 1, whose
result did not attempt a reopen. -/
theorem C4_retry_needs_marker_change_witness :
    watch_tick ⟨0, v5⟩ 1 ReopenOutcome.failNotAPDF = some ⟨⟨1, v5⟩, true⟩
    ∧ ((⟨⟨1, v5⟩, false⟩ : TickResult).attempted = true ↔ (1 : Int) ≠ 1) :=
  C4_retry_needs_marker_change ⟨0, v5⟩ 1 1 (ReopenOutcome.success ⟨7⟩)
    ⟨⟨1, v5⟩, false⟩ (by decide) (by decide)

/-- Claim C5: evaluation of the code at the failing input. On a 5-page
document with the cursor on page index 2, typing the value 0 — a request
for page index -1, outside the valid range — is not ignored: the guard
only compares int(value) against current_page and total_pages, so the
assignment current_page = int(value) - 1 runs and sets the cursor to -1,
changing the current page index. The claim says the request is silently
ignored and the index left unchanged. -/
theorem C5_zero_input_changes_cursor :
    on_input_changed v5 "0" = { v5 with current_page := -1 }
    ∧ (on_input_changed v5 "0").current_page ≠ v5.current_page := by decide

/-- Claim C6: evaluation of the code at the failing input. On a 5-page
document with the cursor on page index 2, typing the value 5 — a request
for the last page, index 4, which is in range and differs from the
current page — is rejected, because the guard requires
int(value) < total_pages instead of int(value) - 1 < total_pages: the
cursor stays at index 2 although the claim says it must become 4. -/
theorem C6_last_page_input_rejected :
    on_input_changed v5 "5" = v5 ∧ py_int "5" - 1 = v5.total_pages - 1 := by decide

/-- Claim C9: in the successful-reload body, the cache reset happens
strictly before the cursor adjustment, and both strictly before the UI
refresh, in the line order of the source; a successful reload always
leaves the cache empty; and across every finite sequence of application
operations, every cache entry was rendered against the current document
generation, so no entry of a prior generation is ever observable. -/
theorem C9_clear_before_resize_before_notify (v : Viewer) (l : List Op)
    (d : Document) (h : cache_inv v = true) :
    (reload_events.indexOf ReloadEvent.clearCache <
        reload_events.indexOf ReloadEvent.resizeCursor
      ∧ reload_events.indexOf ReloadEvent.resizeCursor <
        reload_events.indexOf ReloadEvent.notifyUI)
    ∧ (reload_success v d).cache = []
    ∧ cache_inv (apply_ops v l) = true := by
  refine ⟨by decide, ?_, cache_inv_ops v l h⟩
  rw [reload_success_eq]
  split <;> rfl

/-- Witness for C9: a concrete run that renders, navigates, reloads and
renders again keeps the cache coherent with the current generation. -/
theorem C9_clear_before_resize_before_notify_witness :
    cache_inv (apply_ops v5 [Op.render, Op.next, Op.reload ⟨3⟩, Op.render]) =
      true :=
  (C9_clear_before_resize_before_notify v5
    [Op.render, Op.next, Op.reload ⟨3⟩, Op.render] ⟨3⟩ (by decide)).2.2

/-- Claim C10: the jump-to-page interface is 1-based over a 0-based
cursor: the page-number input always displays current_page + 1, and a
typed numeric value is acted on exactly when it differs from the 0-based
current_page and is below total_pages, in which case the cursor is set
to the typed value minus 1; otherwise the state is unchanged. -/
theorem C10_one_based_interface (v : Viewer) (s : String) :
    fix_buttons_current_value v = toString (v.current_page + 1)
    ∧ ((py_isnumeric s = true ∧ v.current_page ≠ py_int s ∧
          py_int s < v.total_pages) →
        on_input_changed v s = { v with current_page := py_int s - 1 })
    ∧ (¬ (py_isnumeric s = true ∧ v.current_page ≠ py_int s ∧
          py_int s < v.total_pages) →
        on_input_changed v s = v) := by
  refine ⟨rfl, fun h => ?_, fun h => ?_⟩
  · rw [on_input_changed, if_pos h]
  · rw [on_input_changed, if_neg h]

/-- Witness for C10: typing 4 on a 5-page document with cursor at index 2
moves the cursor to index 3. -/
theorem C10_one_based_interface_witness :
    on_input_changed v5 "4" = { v5 with current_page := py_int "4" - 1 } :=
  (C10_one_based_interface v5 "4").2.1 (by decide)

end Ptf
